import Mathlib

/-!
Verification of the filter/query compilation core of `clickhouse_wrapper`
(`clickhouse/orm/query.py`), shallowly embedded in Lean.

Python values that can appear as filter values are modelled by `PyVal`;
field coercion (`to_python` / `to_db_string`), supplied by the schema layer,
is modelled by `Field`; a model class is a table name, an engine tag and a
mapping from field names to fields.  Functions that can return Python `None`
are `Option`-valued; functions that can raise are `Except`-valued.
-/

namespace ClickhouseWrapper

/-- A Python value used as the right-hand side of a filter. -/
inductive PyVal where
  | none
  | str (s : String)
  | int (n : Int)
  | list (items : List PyVal)

/-- Python `v is None` for `PyVal`. -/
def PyVal.isNone : PyVal → Bool
  | PyVal.none => true
  | _ => false

/-- Python `str(v)` for the values of `PyVal` (`str(None) = "None"`,
strings are returned verbatim, integers print in decimal). -/
def PyVal.pyStr : PyVal → String
  | PyVal.none => "None"
  | PyVal.str s => s
  | PyVal.int n => toString n
  | PyVal.list _ => "[...]"

/-- The field-coercion surface the query core consumes from the schema layer:
`to_python(raw, tz)` (the timezone is always `pytz.utc`, so it is dropped) and
`to_db_string(value, quote)`. -/
structure Field where
  to_python : PyVal → PyVal
  to_db_string : PyVal → Bool → String

/-- A model class as seen by the query core: field lookup (`getattr`),
`table_name()`, and the engine-kind tag.  `engine_collapsing` is modelled from
the spec: `clickhouse/orm/engines.py` is not among the provided sources and
the spec exposes the engine check as `model -> is_collapsing_engine: bool`. -/
structure Model where
  fields : String → Field
  table_name : String
  engine_collapsing : Bool

/-- Modelled from the spec: `comma_join` lives in `clickhouse/orm/utils.py`,
which is not among the provided sources; it joins rendered items with a comma
separator (spec 4.4: fields and join fields are comma-joined lists). -/
def comma_join (items : List String) : String :=
  String.intercalate ", " items

/-- Modelled from the spec: `is_in_parenthesis` lives in
`clickhouse/orm/utils.py`, which is not among the provided sources.  The spec
describes it as testing whether a child's rendering is "already
self-parenthesized" (spec 4.3 step 2). -/
def is_in_parenthesis (s : String) : Bool :=
  (match s.data with
   | c :: _ => c = '('
   | [] => false) &&
  (match s.data.getLast? with
   | Option.some c => c = ')'
   | Option.none => false)

/-- Replace every occurrence of the character `c` by the character list
`repl`; this is Python `str.replace` restricted to single-character patterns,
which is all `LikeOperator.to_sql` uses. -/
def replaceChar (c : Char) (repl : List Char) : List Char → List Char
  | [] => []
  | a :: rest => (if a = c then repl else [a]) ++ replaceChar c repl rest

/-- The escaping chain of `LikeOperator.to_sql`:
`value.replace('\\', '\\\\').replace('%', '\\\\%').replace('_', '\\\\_')`,
i.e. backslash becomes two backslashes, percent and underscore each gain a
doubled backslash escape. -/
def likeEscape (s : String) : String :=
  String.mk (replaceChar '_' ['\\', '\\', '_']
    (replaceChar '%' ['\\', '\\', '%']
      (replaceChar '\\' ['\\', '\\'] s.data)))

/-- The operator variants registered in `_operators` (query.py lines 29-156).
The Python `LikeOperator` holds a template string with a single placeholder
(`'%{}%'`, `'{}%'`, `'%{}'`); `template.format(v)` is embedded as
`pattern_pre ++ v ++ pattern_post`. -/
inductive Operator where
  | simple (sql_operator : String) (sql_for_null : Option String)
  | inOp
  | like (pattern_pre pattern_post : String) (case_sensitive : Bool)
  | iexact
  | notOp (base : Operator)
  | between
deriving DecidableEq, Repr

/-- Truthiness of the intermediate `value0`/`value1` of
`BetweenOperator.to_sql`: Python `None` and the empty string are falsy. -/
def pyTruthyStr : Option String → Bool
  | Option.none => false
  | Option.some s => s ≠ ""

/-- `Operator.to_sql(model_cls, field_name, value)` for each registered
operator class (query.py lines 29-132).  A Python return of `None`
(the fall-through of `BetweenOperator.to_sql`) is `Option.none`; an
unsubscriptable/non-iterable value where Python would raise is also mapped to
`Option.none`. -/
def Operator.to_sql : Operator → Model → String → PyVal → Option String
  | Operator.simple op null, m, field_name, value =>
    let field := m.fields field_name
    let v := field.to_db_string (field.to_python value) true
    if v = "\\N" ∧ null ≠ Option.none then
      Option.some (field_name ++ " " ++ null.getD "")
    else
      Option.some (field_name ++ " " ++ op ++ " " ++ v)
  | Operator.inOp, m, field_name, value =>
    let field := m.fields field_name
    match value with
    | PyVal.str s => Option.some (field_name ++ " IN (" ++ s ++ ")")
    | PyVal.list vs =>
      Option.some (field_name ++ " IN (" ++
        comma_join (vs.map (fun v => field.to_db_string (field.to_python v) true)) ++ ")")
    | _ => Option.none
  | Operator.like pre post cs, m, field_name, value =>
    let field := m.fields field_name
    let v := field.to_db_string (field.to_python value) false
    let pattern := pre ++ likeEscape v ++ post
    if cs then
      Option.some (field_name ++ " LIKE '" ++ pattern ++ "'")
    else
      Option.some ("lowerUTF8(toString(" ++ field_name ++ ")) LIKE lowerUTF8('" ++ pattern ++ "')")
  | Operator.iexact, m, field_name, value =>
    let field := m.fields field_name
    let v := field.to_db_string (field.to_python value) true
    Option.some ("lowerUTF8(" ++ field_name ++ ") = lowerUTF8(" ++ v ++ ")")
  | Operator.notOp base, m, field_name, value =>
    (Operator.to_sql base m field_name value).map (fun s => "NOT (" ++ s ++ ")")
  | Operator.between, m, field_name, value =>
    let field := m.fields field_name
    match value with
    | PyVal.list (v0 :: v1 :: _) =>
      -- `value0 = field.to_db_string(field.to_python(value[0], utc))
      --           if value[0] is not None or len(str(value[0])) > 0 else None`
      let value0 : Option String :=
        if !v0.isNone || (PyVal.pyStr v0).length > 0 then
          Option.some (field.to_db_string (field.to_python v0) true)
        else Option.none
      let value1 : Option String :=
        if !v1.isNone || (PyVal.pyStr v1).length > 0 then
          Option.some (field.to_db_string (field.to_python v1) true)
        else Option.none
      if pyTruthyStr value0 && pyTruthyStr value1 then
        Option.some (field_name ++ " BETWEEN " ++ value0.getD "" ++ " AND " ++ value1.getD "")
      else if pyTruthyStr value0 && !pyTruthyStr value1 then
        Option.some (String.intercalate " " [field_name, ">=", value0.getD ""])
      else if pyTruthyStr value1 && !pyTruthyStr value0 then
        Option.some (String.intercalate " " [field_name, "<=", value1.getD ""])
      else
        Option.none  -- Python falls off the end of to_sql and returns None
    | _ => Option.none

/-- The process-wide operator registry built by the `register_operator`
calls (query.py lines 136-156); `_operators.get(name)`. -/
def _operators : String → Option Operator
  | "eq" => Option.some (Operator.simple "=" (Option.some "IS NULL"))
  | "ne" => Option.some (Operator.simple "!=" (Option.some "IS NOT NULL"))
  | "gt" => Option.some (Operator.simple ">" Option.none)
  | "gte" => Option.some (Operator.simple ">=" Option.none)
  | "lt" => Option.some (Operator.simple "<" Option.none)
  | "lte" => Option.some (Operator.simple "<=" Option.none)
  | "between" => Option.some Operator.between
  | "in" => Option.some Operator.inOp
  | "not_in" => Option.some (Operator.notOp Operator.inOp)
  | "contains" => Option.some (Operator.like "%" "%" true)
  | "startswith" => Option.some (Operator.like "" "%" true)
  | "endswith" => Option.some (Operator.like "%" "" true)
  | "icontains" => Option.some (Operator.like "%" "%" false)
  | "istartswith" => Option.some (Operator.like "" "%" false)
  | "iendswith" => Option.some (Operator.like "%" "" false)
  | "iexact" => Option.some Operator.iexact
  | _ => Option.none

/-- Field + Operator + Value (query.py lines 159-175). -/
structure FOV where
  field_name : String
  operator : Operator
  operator_lookup : String
  value : PyVal

/-- `FOV.__init__`: looks the operator name up in the registry; on a miss the
name was part of a field name containing `__`, so the key is reassembled and
the operator defaults to `eq`. -/
def FOV.make (field_name operator : String) (value : PyVal) : FOV :=
  match _operators operator with
  | Option.some op =>
    { field_name := field_name, operator := op, operator_lookup := operator, value := value }
  | Option.none =>
    { field_name := field_name ++ "__" ++ operator,
      operator := (_operators "eq").getD (Operator.simple "=" (Option.some "IS NULL")),
      operator_lookup := operator, value := value }

/-- `FOV.to_sql(model_cls)`. -/
def FOV.to_sql (f : FOV) (m : Model) : Option String :=
  Operator.to_sql f.operator m f.field_name f.value

/-- Index of the rightmost occurrence of the substring `"__"` in a character
list, or `Option.none` when there is none.  `i` is an occurrence when the
characters at positions `i` and `i+1` are both `'_'`; this is Python
`key.rfind('__')`, the split point of `key.rsplit('__', 1)`. -/
def lastUU : List Char → Option Nat
  | [] => Option.none
  | c :: rest =>
    match lastUU rest with
    | Option.some i => Option.some (i + 1)
    | Option.none =>
      if c = '_' ∧ rest.head? = Option.some '_' then Option.some 0 else Option.none

/-- `Q._build_fov(key, value)` (query.py lines 198-203): if the key contains
`'__'`, split at the rightmost `'__'` (Python `key.rsplit('__', 1)`) into
field name and operator name; otherwise the operator is `eq`. -/
def Q.build_fov (key : String) (value : PyVal) : FOV :=
  match lastUU key.data with
  | Option.some i =>
    FOV.make (String.mk (key.data.take i)) (String.mk (key.data.drop (i + 2))) value
  | Option.none => FOV.make key "eq" value

/-- The state of a `Q` object (query.py lines 178-237): a list of FOVs, the
two optional children, the negation flag and the boolean mode
(`'AND'`/`'OR'`). -/
inductive QTree where
  | mk (fovs : List FOV) (l_child : Option QTree) (r_child : Option QTree)
       (negate : Bool) (mode : String)

/-- `Q(**filter_fields)`: one FOV per keyword pair, no children, not negated,
`AND` mode. -/
def Q.ofFields (filter_fields : List (String × PyVal)) : QTree :=
  QTree.mk (filter_fields.map (fun kv => Q.build_fov kv.1 kv.2))
    Option.none Option.none false "AND"

/-- `Q._construct_from(l_child, r_child, mode)`: a fresh `Q()` carrying the
two children and the mode. -/
def Q.construct_from (l r : QTree) (mode : String) : QTree :=
  QTree.mk [] (Option.some l) (Option.some r) false mode

/-- `Q.__invert__`: a shallow copy with the negation flag toggled. -/
def QTree.invert : QTree → QTree
  | QTree.mk fovs l r neg mode => QTree.mk fovs l r (!neg) mode

/-- `Q.__bool__`: true when the tree has FOVs or at least one child. -/
def QTree.toBool : QTree → Bool
  | QTree.mk fovs l r _ _ => !fovs.isEmpty || r.isSome || l.isSome

/-- `Q.to_sql(model_cls)` (query.py lines 205-223).  A leaf joins its FOV
renderings with the mode keyword; a node with both children combines their
renderings, dropping a side that rendered to the neutral `'1'` and otherwise
parenthesizing; a node with no FOVs and not both children present returns
`'1'` directly — note that this early `return '1'` skips the negation
wrapper at the end of the method. -/
def QTree.to_sql (m : Model) : QTree → Option String
  | QTree.mk fovs l r neg mode =>
    if !fovs.isEmpty then
      (fovs.mapM (fun f => FOV.to_sql f m)).map (fun sqls =>
        let sql := String.intercalate (" " ++ mode ++ " ") sqls
        if neg then "NOT (" ++ sql ++ ")" else sql)
    else
      match l, r with
      | Option.some lc, Option.some rc =>
        match QTree.to_sql m lc, QTree.to_sql m rc with
        | Option.some l_child_sql, Option.some r_child_sql =>
          let sql :=
            if l_child_sql = "1" then r_child_sql
            else if r_child_sql = "1" then l_child_sql
            else "(" ++ l_child_sql ++ " " ++ mode ++ " " ++ r_child_sql ++ ")"
          Option.some (if neg then "NOT (" ++ sql ++ ")" else sql)
        | _, _ => Option.none
      | _, _ => Option.some "1"

/-- `NDEQ.to_sql(model_cls, is_root)` (query.py lines 245-267): like
`Q.to_sql` but threads an `is_root` flag; at a non-root position the
composite is left unparenthesized when both child renderings are already
self-parenthesized. -/
def NDEQ.to_sql (m : Model) : QTree → Bool → Option String
  | QTree.mk fovs l r neg mode, is_root =>
    if !fovs.isEmpty then
      (fovs.mapM (fun f => FOV.to_sql f m)).map (fun sqls =>
        let sql := String.intercalate (" " ++ mode ++ " ") sqls
        if neg then "NOT (" ++ sql ++ ")" else sql)
    else
      match l, r with
      | Option.some lc, Option.some rc =>
        match NDEQ.to_sql m lc false, NDEQ.to_sql m rc false with
        | Option.some l_child_sql, Option.some r_child_sql =>
          let sql :=
            if l_child_sql = "1" then r_child_sql
            else if r_child_sql = "1" then l_child_sql
            else if is_root || !(is_in_parenthesis l_child_sql && is_in_parenthesis r_child_sql) then
              "(" ++ l_child_sql ++ " " ++ mode ++ " " ++ r_child_sql ++ ")"
            else
              l_child_sql ++ " " ++ mode ++ " " ++ r_child_sql
          Option.some (if neg then "NOT (" ++ sql ++ ")" else sql)
        | _, _ => Option.none
      | _, _ => Option.some "1"

/-- The target passed to `QuerySet.join`: either a model class (no `as_sql`
attribute, so `join_as_sql` calls its `table_name()`), or an object with an
`as_sql` method (another queryset or subquery), represented by the SQL its
`as_sql()` returns. -/
inductive JoinSrc where
  | modelCls (table_name : String)
  | subSql (sql : String)

/-- The state of a `QuerySet` (query.py lines 316-335).  The database handle
is not part of the model: execution is the external collaborator's concern.
`limits` uses `Int` because slicing arithmetic in `paginate` can produce
negative offsets before the assertions reject them. -/
structure QuerySet where
  model : Model
  order_by : List String
  q : List QTree
  fields : List String
  limits : Option (Int × Int)
  join_label : String
  join_type : String
  join_fields : List String
  join_query : Option JoinSrc
  subquery : String
  distinct : Bool
  extra : String
  array : String
  final_flag : Bool

/-- `QuerySet.__init__(model_cls, database)`. -/
def QuerySet.init (m : Model) : QuerySet :=
  { model := m, order_by := [], q := [], fields := ["*"], limits := Option.none,
    join_label := "", join_type := "", join_fields := [], join_query := Option.none,
    subquery := "", distinct := false, extra := "", array := "", final_flag := false }

/-- `QuerySet.order_by_as_sql` (query.py lines 432-439): a leading `'-'`
turns into a trailing `DESC`. -/
def QuerySet.order_by_as_sql (qs : QuerySet) : String :=
  comma_join (qs.order_by.map (fun field =>
    match field.data with
    | '-' :: rest => String.mk rest ++ " DESC"
    | _ => field))

/-- `QuerySet.conditions_as_sql` (query.py lines 441-452): AND-join the
renderings of the attached trees, dropping those that render `'1'`; an empty
join falls back to `'1'` (Python `or '1'`); the raw extra fragment is ANDed
on. -/
def QuerySet.conditions_as_sql (qs : QuerySet) : Option String :=
  if !qs.q.isEmpty then
    (qs.q.mapM (fun q => QTree.to_sql qs.model q)).map (fun sqls =>
      let joined := String.intercalate " AND " (sqls.filter (fun s => s ≠ "1"))
      let res := if joined = "" then "1" else joined
      if qs.extra ≠ "" then res ++ " AND " ++ qs.extra else res)
  else if qs.extra ≠ "" then Option.some qs.extra
  else Option.some "1"

/-- `QuerySet.join_as_sql` (query.py lines 413-417):
`'%s %s %s USING %s' % (join_type, join_table, join_label, join_fields)`.
`Option.none` models the `AttributeError` Python raises when no join target
was ever set. -/
def QuerySet.join_as_sql (qs : QuerySet) : Option String :=
  match qs.join_query with
  | Option.none => Option.none
  | Option.some jq =>
    let join_table :=
      match jq with
      | JoinSrc.subSql sql => "(" ++ sql ++ ")"
      | JoinSrc.modelCls name => name
    Option.some (qs.join_type ++ " " ++ join_table ++ " " ++ qs.join_label ++
      " USING " ++ comma_join qs.join_fields)

/-- `QuerySet.as_sql` (query.py lines 373-389).  The result is `Option.none`
exactly when rendering a sub-part raises in Python (a condition tree whose
rendering fails, or a join clause without a join target). -/
def QuerySet.as_sql (qs : QuerySet) : Option String :=
  let distinct := if qs.distinct then "DISTINCT " else ""
  let fields := if !qs.fields.isEmpty then comma_join qs.fields else "*"
  let ordering := if !qs.order_by.isEmpty then "\nORDER BY " ++ qs.order_by_as_sql else ""
  let limit :=
    match qs.limits with
    | Option.some (o, c) => "\nLIMIT " ++ toString o ++ ", " ++ toString c
    | Option.none => ""
  let join_opt :=
    if !qs.join_fields.isEmpty then (qs.join_as_sql).map (fun j => "\n" ++ j)
    else Option.some ""
  let array_join := if qs.array ≠ "" then "\n" ++ qs.array else ""
  let final := if qs.final_flag then " FINAL" else ""
  let table := if qs.subquery ≠ "" then qs.subquery else qs.model.table_name
  match join_opt, qs.conditions_as_sql with
  | Option.some join, Option.some conds =>
    Option.some ("SELECT " ++ distinct ++ fields ++ "\nFROM " ++ table ++ join ++ array_join ++
      final ++ "\nWHERE " ++ conds ++ ordering ++ limit)
  | _, _ => Option.none

/-- `QuerySet.join(query, *join_fields, inner_, label_, all_)` (query.py
lines 391-405).  Note `_join_type +=`: the new type is appended to whatever
join type the copy inherited; the label is only overwritten when `label_` is
truthy. -/
def QuerySet.join (self : QuerySet) (query : JoinSrc) (join_fields : List String)
    (inner_ : Bool) (label_ : String) (all_ : Bool) : QuerySet :=
  let qs := { self with join_fields := join_fields, join_query := Option.some query }
  let qs := if label_ ≠ "" then { qs with join_label := " AS " ++ label_ } else qs
  let qs := { qs with join_type := qs.join_type ++ (if all_ then "ALL " else "ANY ") }
  { qs with join_type := qs.join_type ++ (if inner_ then "INNER JOIN " else "LEFT JOIN ") }

/-- `QuerySet.array_join(*array, label='')` (query.py lines 407-411).  The
assignment is `'ARRAY JOIN [%s]' % array + ' AS %s' % label if label else
''`: by Python precedence the conditional governs the whole concatenation,
so without a label `_array` is set to the empty string. -/
def QuerySet.array_join (self : QuerySet) (array : List PyVal) (label : String) : QuerySet :=
  let arr := comma_join (array.map PyVal.pyStr)
  { self with array :=
      if label ≠ "" then "ARRAY JOIN [" ++ arr ++ "]" ++ " AS " ++ label else "" }

/-- `QuerySet.filter(*q, **filter_fields)` (query.py lines 484-494).
`copy(self)` is a shallow copy sharing `self`'s attribute values; the body
only ever rebinds the copy's `_q` to freshly built lists
(`list(self._q) + list(q)`, `qs._q + [Q(**filter_fields)]`) and never calls a
mutating method on a shared object, so `self`'s state when the call returns
is its state before the call.  The result is the pair
(state of `self` after the call, the returned queryset). -/
def QuerySet.filter (self : QuerySet) (q : List QTree)
    (filter_fields : List (String × PyVal)) : QuerySet × QuerySet :=
  let qs := self
  let qs := if !q.isEmpty then { qs with q := self.q ++ q } else qs
  let qs :=
    if !filter_fields.isEmpty then { qs with q := qs.q ++ [Q.ofFields filter_fields] }
    else qs
  (self, qs)

/-- `QuerySet.exclude(*q_list, **filter_fields)` (query.py lines 496-505):
like `filter` but each added tree is negated (`~q`).  Same copy/rebind
discipline, same pair convention as `QuerySet.filter`. -/
def QuerySet.exclude (self : QuerySet) (q_list : List QTree)
    (filter_fields : List (String × PyVal)) : QuerySet × QuerySet :=
  let qs := self
  let qs := if !q_list.isEmpty then { qs with q := self.q ++ q_list.map QTree.invert } else qs
  let qs :=
    if !filter_fields.isEmpty then
      { qs with q := qs.q ++ [QTree.invert (Q.ofFields filter_fields)] }
    else qs
  (self, qs)

/-- `QuerySet.final` (query.py lines 544-554): raises `TypeError` unless the
model's engine is a `CollapsingMergeTree`; otherwise a copy with the FINAL
flag set. -/
def QuerySet.final (self : QuerySet) : Except String QuerySet :=
  if !self.model.engine_collapsing then
    Except.error "final() method can be used only with CollapsingMergeTree engine"
  else
    Except.ok { self with final_flag := true }

/-- The slice branch of `QuerySet.__getitem__` (query.py lines 362-371).
`start = s.start or 0` and `stop = s.stop or 2**63 - 1` use Python
truthiness, so an explicit `0` bound behaves like an omitted one; the
`assert` failures become `Except.error` with the assertion message. -/
def QuerySet.getitemSlice (qs : QuerySet) (start stop step : Option Int) :
    Except String QuerySet :=
  if step = Option.none ∨ step = Option.some 1 then
    let start : Int :=
      match start with
      | Option.none => 0
      | Option.some v => if v = 0 then 0 else v
    let stop : Int :=
      match stop with
      | Option.none => 2 ^ 63 - 1
      | Option.some v => if v = 0 then 2 ^ 63 - 1 else v
    if start ≥ 0 ∧ stop ≥ 0 then
      if start ≤ stop then
        Except.ok { qs with limits := Option.some (start, stop - start) }
      else
        Except.error "start of slice cannot be smaller than its end"
    else
      Except.error "negative indexes are not supported"
  else
    Except.error "step is not supported in slices"

/-- The `Page` namedtuple (query.py line 519, from `.database`).  `objects`
is `list(self[offset : offset + page_size])`; materializing it runs the
query, so the page carries the sliced queryset handed to the execution
layer. -/
structure Page where
  objects : QuerySet
  number_of_objects : Nat
  pages_total : Nat
  number : Int
  page_size : Nat

/-- `int(ceil(count / float(page_size)))` for a nonzero `page_size`; exact
ceiling division (the float detour is exact for the magnitudes the claims
evaluate). -/
def pagesTotalOf (count page_size : Nat) : Nat :=
  (count + page_size - 1) / page_size

/-- `QuerySet.paginate(page_num, page_size)` (query.py lines 507-533).
`count` is the result of `self.count()`, which the execution collaborator
supplies, so it is a parameter here.  `page_size = 0` is Python's
`ZeroDivisionError` from `count / float(page_size)`. -/
def QuerySet.paginate (qs : QuerySet) (count : Nat) (page_num : Int) (page_size : Nat) :
    Except String Page :=
  if page_size = 0 then Except.error "float division by zero"
  else
    let pages_total := pagesTotalOf count page_size
    let resolved : Except String Int :=
      if page_num = -1 then Except.ok (pages_total : Int)
      else if page_num < 1 then Except.error ("Invalid page number: " ++ toString page_num)
      else Except.ok page_num
    match resolved with
    | Except.error e => Except.error e
    | Except.ok pn =>
      let offset := (pn - 1) * (page_size : Int)
      match qs.getitemSlice (Option.some offset) (Option.some (offset + (page_size : Int)))
          Option.none with
      | Except.error e => Except.error e
      | Except.ok sliced =>
        Except.ok ⟨sliced, count, pages_total, pn, page_size⟩

/-- Does the rightmost `'__'`-separated suffix of the key fail to resolve in
the operator registry?  (Vacuously true when the key contains no `'__'`.)
This is the condition under which `FOV.__init__` falls back to treating the
whole key as a field name with implicit equality. -/
def lastSegmentUnregistered (f : String) : Bool :=
  match lastUU f.data with
  | Option.some i => (_operators (String.mk (f.data.drop (i + 2)))).isNone
  | Option.none => true

/-- Does the unquoted db text of a LIKE value contain a character needing
escaping (`'%'`, `'_'` or a backslash)? -/
def containsLikeSpecial (s : String) : Bool :=
  s.data.contains '%' || s.data.contains '_' || s.data.contains '\\'

/-- A sample field behaving like a simple column: `to_python` is the
identity; `to_db_string` quotes strings (when asked to), prints integers in
decimal, and serializes Python `None` as the escaped NULL literal `\N`. -/
def egField : Field :=
  { to_python := fun v => v,
    to_db_string := fun v quote =>
      match v with
      | PyVal.none => "\\N"
      | PyVal.str s => if quote then "'" ++ s ++ "'" else s
      | PyVal.int n => toString n
      | PyVal.list _ => "[]" }

/-- A sample field whose serialization is the bare text, so an empty string
value serializes to an empty (falsy) db string. -/
def rawField : Field :=
  { to_python := fun v => v,
    to_db_string := fun v _ =>
      match v with
      | PyVal.none => ""
      | PyVal.str s => s
      | PyVal.int n => toString n
      | PyVal.list _ => "" }

/-- A sample model: table `t`, non-collapsing engine, field `g` raw and
every other field an `egField`. -/
def egModel : Model :=
  { fields := fun name => if name = "g" then rawField else egField,
    table_name := "t", engine_collapsing := false }

/-- The same sample model on a collapsing (`CollapsingMergeTree`) engine. -/
def egModelC : Model :=
  { fields := egModel.fields, table_name := "t", engine_collapsing := true }

/-- A sample leaf condition tree rendering `a = 1`. -/
def c3Left : QTree :=
  QTree.mk [FOV.make "a" "eq" (PyVal.int 1)] Option.none Option.none false "AND"

/-- A sample leaf condition tree rendering `b = 2`. -/
def c3Right : QTree :=
  QTree.mk [FOV.make "b" "eq" (PyVal.int 2)] Option.none Option.none false "AND"

/-- A queryset that joined against `t1` with an alias, then against `t2`
without one. -/
def c9Twice : QuerySet :=
  ((QuerySet.init egModel).join (JoinSrc.modelCls "t1") ["a"] false "lbl" true).join
    (JoinSrc.modelCls "t2") ["b"] false "" true

/-- Unfolding lemma: `Q.to_sql` on a tree with at least one FOV. -/
theorem QTree.to_sql_leaf (m : Model) (f : FOV) (fs : List FOV) (l r : Option QTree)
    (neg : Bool) (mode : String) :
    QTree.to_sql m (QTree.mk (f :: fs) l r neg mode) =
      ((f :: fs).mapM (fun fv => FOV.to_sql fv m)).map (fun sqls =>
        let sql := String.intercalate (" " ++ mode ++ " ") sqls
        if neg then "NOT (" ++ sql ++ ")" else sql) := by
  unfold QTree.to_sql
  simp

/-- Unfolding lemma: `Q.to_sql` on a tree with no FOVs and both children. -/
theorem QTree.to_sql_node (m : Model) (lc rc : QTree) (neg : Bool) (mode : String) :
    QTree.to_sql m (QTree.mk [] (Option.some lc) (Option.some rc) neg mode) =
      match QTree.to_sql m lc, QTree.to_sql m rc with
      | Option.some l_child_sql, Option.some r_child_sql =>
        let sql :=
          if l_child_sql = "1" then r_child_sql
          else if r_child_sql = "1" then l_child_sql
          else "(" ++ l_child_sql ++ " " ++ mode ++ " " ++ r_child_sql ++ ")"
        Option.some (if neg then "NOT (" ++ sql ++ ")" else sql)
      | _, _ => Option.none := by
  conv_lhs => unfold QTree.to_sql
  simp

/-- Unfolding lemma: `Q.to_sql` without FOVs and without a right child
returns `'1'` whatever the negation flag. -/
theorem QTree.to_sql_no_rchild (m : Model) (l : Option QTree) (neg : Bool) (mode : String) :
    QTree.to_sql m (QTree.mk [] l Option.none neg mode) = Option.some "1" := by
  unfold QTree.to_sql
  cases l <;> simp

/-- Unfolding lemma: `Q.to_sql` without FOVs and without a left child
returns `'1'` whatever the negation flag. -/
theorem QTree.to_sql_no_lchild (m : Model) (r : Option QTree) (neg : Bool) (mode : String) :
    QTree.to_sql m (QTree.mk [] Option.none r neg mode) = Option.some "1" := by
  unfold QTree.to_sql
  cases r <;> simp

/-- Unfolding lemma: `NDEQ.to_sql` on a tree with at least one FOV. -/
theorem NDEQ.to_sql_fovs (m : Model) (f : FOV) (fs : List FOV) (l r : Option QTree)
    (neg : Bool) (mode : String) (is_root : Bool) :
    NDEQ.to_sql m (QTree.mk (f :: fs) l r neg mode) is_root =
      ((f :: fs).mapM (fun fv => FOV.to_sql fv m)).map (fun sqls =>
        let sql := String.intercalate (" " ++ mode ++ " ") sqls
        if neg then "NOT (" ++ sql ++ ")" else sql) := by
  unfold NDEQ.to_sql
  simp

/-- Unfolding lemma: `NDEQ.to_sql` on a tree with no FOVs and both
children. -/
theorem NDEQ.to_sql_children (m : Model) (lc rc : QTree) (neg : Bool) (mode : String)
    (is_root : Bool) :
    NDEQ.to_sql m (QTree.mk [] (Option.some lc) (Option.some rc) neg mode) is_root =
      match NDEQ.to_sql m lc false, NDEQ.to_sql m rc false with
      | Option.some l_child_sql, Option.some r_child_sql =>
        let sql :=
          if l_child_sql = "1" then r_child_sql
          else if r_child_sql = "1" then l_child_sql
          else if is_root || !(is_in_parenthesis l_child_sql && is_in_parenthesis r_child_sql) then
            "(" ++ l_child_sql ++ " " ++ mode ++ " " ++ r_child_sql ++ ")"
          else
            l_child_sql ++ " " ++ mode ++ " " ++ r_child_sql
        Option.some (if neg then "NOT (" ++ sql ++ ")" else sql)
      | _, _ => Option.none := by
  conv_lhs => unfold NDEQ.to_sql
  simp

/-- Unfolding lemma: `NDEQ.to_sql` without FOVs and without a right child
returns `'1'` whatever the negation flag. -/
theorem NDEQ.to_sql_missing_rchild (m : Model) (l : Option QTree) (neg : Bool) (mode : String)
    (is_root : Bool) :
    NDEQ.to_sql m (QTree.mk [] l Option.none neg mode) is_root = Option.some "1" := by
  unfold NDEQ.to_sql
  cases l <;> simp

/-- Unfolding lemma: `NDEQ.to_sql` without FOVs and without a left child
returns `'1'` whatever the negation flag. -/
theorem NDEQ.to_sql_missing_lchild (m : Model) (r : Option QTree) (neg : Bool) (mode : String)
    (is_root : Bool) :
    NDEQ.to_sql m (QTree.mk [] Option.none r neg mode) is_root = Option.some "1" := by
  unfold NDEQ.to_sql
  cases r <;> simp

/-- C1: the claim says a `None` bound or a bound with an empty string
representation counts as absent, and that both bounds absent fails
explicitly.  The code's absence guard `value[i] is not None or
len(str(value[i])) > 0` is a tautology (`str(None)` is `"None"`), so a
`None` bound is coerced and rendered (`f BETWEEN \N AND \N`), an
empty-string bound is rendered as the quoted empty literal
(`f BETWEEN '' AND 'x'`), and when both coerced db strings are falsy the
method silently returns Python `None` instead of failing explicitly. -/
theorem C1_between_absent_bounds_bug :
    Operator.to_sql Operator.between egModel "f" (PyVal.list [PyVal.none, PyVal.none]) =
      Option.some "f BETWEEN \\N AND \\N" ∧
    Operator.to_sql Operator.between egModel "f" (PyVal.list [PyVal.str "", PyVal.str "x"]) =
      Option.some "f BETWEEN '' AND 'x'" ∧
    Operator.to_sql Operator.between egModel "g" (PyVal.list [PyVal.str "", PyVal.str ""]) =
      Option.none := by
  refine ⟨?_, ?_, ?_⟩ <;> decide

/-- C2 counterexample: the empty condition tree with the negation flag set
renders `1`, not `NOT (1)` — the `return '1'` branch exits `to_sql` before
the negation wrapper is applied, so the claim's "in every branch, including
the empty tree" is false. -/
theorem C2_empty_tree_counterexample :
    QTree.to_sql egModel (QTree.mk [] Option.none Option.none true "AND") =
      Option.some "1" ∧
    QTree.to_sql egModel (QTree.mk [] Option.none Option.none false "AND") =
      Option.some "1" ∧
    QTree.to_sql egModel (QTree.mk [] Option.none Option.none true "AND") ≠
      (QTree.to_sql egModel (QTree.mk [] Option.none Option.none false "AND")).map
        (fun s => "NOT (" ++ s ++ ")") := by
  refine ⟨?_, ?_, ?_⟩ <;> decide

/-- C4: the claim says `array_join(items)` without an alias renders a
`ARRAY JOIN [items]` clause.  Because the conditional expression in
`qs._array = 'ARRAY JOIN [%s]' % array + ' AS %s' % label if label else ''`
governs the whole concatenation, a call without a label sets `_array` to the
empty string and the rendered SQL carries no ARRAY JOIN clause at all; only
a labelled call produces `ARRAY JOIN [items] AS label`. -/
theorem C4_array_join_dropped_without_alias :
    ((QuerySet.init egModel).array_join [PyVal.str "x"] "").array = "" ∧
    ((QuerySet.init egModel).array_join [PyVal.str "x"] "").as_sql =
      Option.some "SELECT *\nFROM t\nWHERE 1" ∧
    ((QuerySet.init egModel).array_join [PyVal.str "x"] "al").array =
      "ARRAY JOIN [x] AS al" ∧
    ((QuerySet.init egModel).array_join [PyVal.str "x"] "al").as_sql =
      Option.some "SELECT *\nFROM t\nARRAY JOIN [x] AS al\nWHERE 1" := by
  refine ⟨?_, ?_, ?_, ?_⟩ <;> decide

/-- C2 (amended): if the negation flag is set, `Q.to_sql` and `NDEQ.to_sql`
wrap the un-negated rendering in `NOT (...)` in the leaf branch and in the
two-children branch; the remaining branch — no FOVs and not both children
present — returns `1` unchanged, skipping the negation wrapper. -/
theorem C2_negation_wraps_nonempty (m : Model) (fovs : List FOV)
    (l r : Option QTree) (mode : String)
    (h : fovs ≠ [] ∨ (l.isSome ∧ r.isSome)) :
    QTree.to_sql m (QTree.mk fovs l r true mode) =
      (QTree.to_sql m (QTree.mk fovs l r false mode)).map
        (fun s => "NOT (" ++ s ++ ")") ∧
    ∀ is_root, NDEQ.to_sql m (QTree.mk fovs l r true mode) is_root =
      (NDEQ.to_sql m (QTree.mk fovs l r false mode) is_root).map
        (fun s => "NOT (" ++ s ++ ")") := by
  constructor
  · cases fovs with
    | cons f fs =>
      rw [QTree.to_sql_leaf, QTree.to_sql_leaf]
      cases (f :: fs).mapM (fun fv => FOV.to_sql fv m) <;> rfl
    | nil =>
      rcases h with h | ⟨hl, hr⟩
      · exact absurd rfl h
      · obtain ⟨lc, rfl⟩ := Option.isSome_iff_exists.mp hl
        obtain ⟨rc, rfl⟩ := Option.isSome_iff_exists.mp hr
        rw [QTree.to_sql_node, QTree.to_sql_node]
        cases QTree.to_sql m lc <;> cases QTree.to_sql m rc <;> rfl
  · intro is_root
    cases fovs with
    | cons f fs =>
      rw [NDEQ.to_sql_fovs, NDEQ.to_sql_fovs]
      cases (f :: fs).mapM (fun fv => FOV.to_sql fv m) <;> rfl
    | nil =>
      rcases h with h | ⟨hl, hr⟩
      · exact absurd rfl h
      · obtain ⟨lc, rfl⟩ := Option.isSome_iff_exists.mp hl
        obtain ⟨rc, rfl⟩ := Option.isSome_iff_exists.mp hr
        rw [NDEQ.to_sql_children, NDEQ.to_sql_children]
        cases NDEQ.to_sql m lc false <;> cases NDEQ.to_sql m rc false <;> rfl

/-- C2 (amended) witness: the wrapper applies at a concrete negated leaf — the
tree of `~Q(a=1)` renders `NOT (a = 1)`. -/
theorem C2_negation_wraps_witness :
    ([FOV.make "a" "eq" (PyVal.int 1)] ≠ ([] : List FOV) ∨
      ((Option.none : Option QTree).isSome ∧ (Option.none : Option QTree).isSome)) ∧
    QTree.to_sql egModel
        (QTree.mk [FOV.make "a" "eq" (PyVal.int 1)] Option.none Option.none true "AND") =
      Option.some "NOT (a = 1)" := by
  have h : [FOV.make "a" "eq" (PyVal.int 1)] ≠ ([] : List FOV) ∨
      ((Option.none : Option QTree).isSome ∧ (Option.none : Option QTree).isSome) :=
    Or.inl (by simp)
  refine ⟨h, ?_⟩
  have h2 := (C2_negation_wraps_nonempty egModel [FOV.make "a" "eq" (PyVal.int 1)]
    Option.none Option.none "AND" h).1
  rw [h2]
  decide

/-- C3: composing two non-empty trees with `AND`/`OR` via `_construct_from`
and rendering with `NDEQ.to_sql`: at the root the composite is always
parenthesized (when neither child rendered the neutral `'1'`); a child that
rendered `'1'` disappears, leaving only the other child's rendering; at a
non-root position the enclosing parentheses are omitted exactly when both
children's renderings are already self-parenthesized. -/
theorem C3_composition_parenthesization (m : Model) (l r : QTree)
    (mode ls rs : String)
    (hl : QTree.toBool l = true) (hr : QTree.toBool r = true)
    (hls : NDEQ.to_sql m l false = Option.some ls)
    (hrs : NDEQ.to_sql m r false = Option.some rs) :
    (ls ≠ "1" → rs ≠ "1" →
      NDEQ.to_sql m (Q.construct_from l r mode) true =
        Option.some ("(" ++ ls ++ " " ++ mode ++ " " ++ rs ++ ")") ∧
      NDEQ.to_sql m (Q.construct_from l r mode) false =
        Option.some (if is_in_parenthesis ls && is_in_parenthesis rs then
            ls ++ " " ++ mode ++ " " ++ rs
          else "(" ++ ls ++ " " ++ mode ++ " " ++ rs ++ ")")) ∧
    (ls = "1" → ∀ is_root,
      NDEQ.to_sql m (Q.construct_from l r mode) is_root = Option.some rs) ∧
    (rs = "1" → ls ≠ "1" → ∀ is_root,
      NDEQ.to_sql m (Q.construct_from l r mode) is_root = Option.some ls) := by
  have hnode : ∀ is_root, NDEQ.to_sql m (Q.construct_from l r mode) is_root =
      (if ls = "1" then Option.some rs
       else if rs = "1" then Option.some ls
       else if is_root || !(is_in_parenthesis ls && is_in_parenthesis rs) then
         Option.some ("(" ++ ls ++ " " ++ mode ++ " " ++ rs ++ ")")
       else Option.some (ls ++ " " ++ mode ++ " " ++ rs)) := by
    intro is_root
    unfold Q.construct_from
    rw [NDEQ.to_sql_children, hls, hrs]
    by_cases h1 : ls = "1"
    · simp [h1]
    · by_cases h2 : rs = "1"
      · simp [h1, h2]
      · simp only [if_neg h1, if_neg h2, Bool.false_eq_true, if_false]
        split <;> rfl
  refine ⟨fun h1 h2 => ⟨?_, ?_⟩, fun h1 is_root => ?_, fun h1 h2 is_root => ?_⟩
  · rw [hnode true, if_neg h1, if_neg h2]
    simp
  · rw [hnode false, if_neg h1, if_neg h2]
    cases hp : is_in_parenthesis ls && is_in_parenthesis rs <;> simp
  · rw [hnode is_root, if_pos h1]
  · rw [hnode is_root, if_neg h2, if_pos h1]

/-- C3 witness: composing the leaves `a = 1` and `b = 2` with `AND` renders
`(a = 1 AND b = 2)` at the root. -/
theorem C3_composition_witness :
    QTree.toBool c3Left = true ∧ QTree.toBool c3Right = true ∧
    NDEQ.to_sql egModel c3Left false = Option.some "a = 1" ∧
    NDEQ.to_sql egModel c3Right false = Option.some "b = 2" ∧
    NDEQ.to_sql egModel (Q.construct_from c3Left c3Right "AND") true =
      Option.some "(a = 1 AND b = 2)" := by
  have h := ((C3_composition_parenthesization egModel c3Left c3Right "AND" "a = 1" "b = 2"
    (by decide) (by decide) (by decide) (by decide)).1 (by decide) (by decide)).1
  exact ⟨by decide, by decide, by decide, by decide, by rw [h]; decide⟩

/-- Unfolding lemma for `lastUU` on a cons cell. -/
theorem lastUU_cons (c : Char) (xs : List Char) :
    lastUU (c :: xs) =
      (match lastUU xs with
       | Option.some i => Option.some (i + 1)
       | Option.none =>
         if c = '_' ∧ xs.head? = Option.some '_' then Option.some 0
         else Option.none) := rfl

/-- Appending `"__eq"` to any key puts the rightmost `'__'` exactly at the
boundary: the appended underscores are an occurrence, and no occurrence can
start inside `"__eq"` beyond them. -/
theorem lastUU_append_ueq (l : List Char) :
    lastUU (l ++ ['_', '_', 'e', 'q']) = Option.some l.length := by
  induction l with
  | nil => decide
  | cons c rest ih =>
    rw [List.cons_append, lastUU_cons, ih]
    rfl

/-- A rightmost-`'__'` index really is an occurrence: the list splits as
`take i ++ '_' :: '_' :: drop (i+2)`. -/
theorem lastUU_split (l : List Char) (i : Nat) (h : lastUU l = Option.some i) :
    l = l.take i ++ '_' :: '_' :: l.drop (i + 2) := by
  induction l generalizing i with
  | nil => exact Option.noConfusion h
  | cons c rest ih =>
    rw [lastUU_cons] at h
    cases hr : lastUU rest with
    | some j =>
      rw [hr] at h
      injection h with h
      subst h
      rw [List.take_succ_cons, List.drop_succ_cons]
      exact congrArg (c :: ·) (ih j hr)
    | none =>
      rw [hr] at h
      by_cases hc : c = '_' ∧ rest.head? = Option.some '_'
      · rw [if_pos hc] at h
        injection h with h
        subst h
        obtain ⟨hc1, hc2⟩ := hc
        cases rest with
        | nil => exact Option.noConfusion hc2
        | cons d rest2 =>
          have hd : d = '_' := by
            simpa using hc2
          subst hc1
          subst hd
          rfl
      · rw [if_neg hc] at h
        exact Option.noConfusion h

/-- Taking exactly the prefix back out of an append. -/
theorem take_append_len (l t : List Char) : (l ++ t).take l.length = l :=
  List.take_left l t

/-- Dropping the prefix plus `n` out of an append drops `n` of the suffix. -/
theorem drop_append_len (l t : List Char) (n : Nat) :
    (l ++ t).drop (l.length + n) = t.drop n := by
  induction l with
  | nil => simp
  | cons c rest ih =>
    simpa [Nat.succ_add] using ih

/-- Unfolding lemma: `Q._build_fov` on a key whose rightmost `'__'` sits at
index `i` splits the key there. -/
theorem Q.build_fov_split (key : String) (v : PyVal) (i : Nat)
    (h : lastUU key.data = Option.some i) :
    Q.build_fov key v =
      FOV.make (String.mk (key.data.take i)) (String.mk (key.data.drop (i + 2))) v := by
  unfold Q.build_fov
  rw [h]

/-- Unfolding lemma: `Q._build_fov` on a key without `'__'` uses the key as
the field name and `eq` as the operator. -/
theorem Q.build_fov_plain (key : String) (v : PyVal)
    (h : lastUU key.data = Option.none) :
    Q.build_fov key v = FOV.make key "eq" v := by
  unfold Q.build_fov
  rw [h]

/-- The registry resolves `eq` to the simple `=` operator with `IS NULL`
null handling. -/
theorem operators_eq :
    _operators "eq" = Option.some (Operator.simple "=" (Option.some "IS NULL")) := by
  decide

/-- `FOV.__init__` with an unregistered operator name reassembles the key
and falls back to the `eq` operator. -/
theorem FOV.make_unregistered (field_name operator : String) (v : PyVal)
    (h : _operators operator = Option.none) :
    FOV.make field_name operator v =
      { field_name := field_name ++ "__" ++ operator,
        operator := Operator.simple "=" (Option.some "IS NULL"),
        operator_lookup := operator, value := v } := by
  unfold FOV.make
  rw [h, operators_eq]
  rfl

/-- `FOV.__init__` with the operator name `eq` resolves the registered `eq`
operator. -/
theorem FOV.make_eq (field_name : String) (v : PyVal) :
    FOV.make field_name "eq" v =
      { field_name := field_name,
        operator := Operator.simple "=" (Option.some "IS NULL"),
        operator_lookup := "eq", value := v } := by
  unfold FOV.make
  rw [operators_eq]

/-- Rendering only looks at the field name, operator and value of an FOV,
not at the stored lookup string. -/
theorem FOV.to_sql_congr (m : Model) (a b : FOV) (h1 : a.field_name = b.field_name)
    (h2 : a.operator = b.operator) (h3 : a.value = b.value) :
    FOV.to_sql a m = FOV.to_sql b m := by
  unfold FOV.to_sql
  rw [h1, h2, h3]

/-- C5 (amended): building a condition from the filter key `f` and from the
key `f ++ "__eq"` renders the same predicate for every model and value,
provided the rightmost `'__'`-separated suffix of `f` (when there is one) is
not itself a registered operator name.  (When it is — e.g. `f = "a__gt"` —
the bare key resolves that operator instead of equality and the two
predicates differ.) -/
theorem C5_eq_suffix_equivalence (f : String) (v : PyVal) (m : Model)
    (h : lastSegmentUnregistered f = true) :
    FOV.to_sql (Q.build_fov f v) m = FOV.to_sql (Q.build_fov (f ++ "__eq") v) m := by
  have hdata : (f ++ "__eq").data = f.data ++ ['_', '_', 'e', 'q'] :=
    String.data_append f "__eq"
  have harg1 : String.mk ((f ++ "__eq").data.take f.data.length) = f := by
    rw [hdata, take_append_len]
  have harg2 : String.mk ((f ++ "__eq").data.drop (f.data.length + 2)) = "eq" := by
    rw [hdata, drop_append_len]
    decide
  have hrhs : Q.build_fov (f ++ "__eq") v = FOV.make f "eq" v := by
    rw [Q.build_fov_split (f ++ "__eq") v f.data.length
      (by rw [hdata]; exact lastUU_append_ueq f.data)]
    rw [harg1, harg2]
  rw [hrhs]
  unfold lastSegmentUnregistered at h
  cases hfl : lastUU f.data with
  | none =>
    rw [Q.build_fov_plain f v hfl]
  | some i =>
    rw [hfl] at h
    have hseg : _operators (String.mk (f.data.drop (i + 2))) = Option.none :=
      Option.isNone_iff_eq_none.mp h
    rw [Q.build_fov_split f v i hfl,
      FOV.make_unregistered (String.mk (f.data.take i)) (String.mk (f.data.drop (i + 2))) v hseg,
      FOV.make_eq f v]
    have hfield : String.mk (f.data.take i) ++ "__" ++ String.mk (f.data.drop (i + 2)) = f := by
      have hsp := lastUU_split f.data i hfl
      have hd : (String.mk (f.data.take i) ++ "__" ++ String.mk (f.data.drop (i + 2))).data =
          f.data := by
        rw [String.data_append, String.data_append]
        simpa using hsp.symm
      calc String.mk (f.data.take i) ++ "__" ++ String.mk (f.data.drop (i + 2))
          = String.mk ((String.mk (f.data.take i) ++ "__" ++
              String.mk (f.data.drop (i + 2))).data) := rfl
        _ = String.mk f.data := by rw [hd]
        _ = f := rfl
    exact FOV.to_sql_congr m _ _ hfield rfl rfl

/-- C5 counterexample: for the field name `a__gt` the two keys disagree —
`{a__gt: 5}` resolves the registered `gt` operator on field `a`
(rendering `a > 5`) while `{a__gt__eq: 5}` renders `a__gt = 5`. -/
theorem C5_counterexample :
    FOV.to_sql (Q.build_fov "a__gt" (PyVal.int 5)) egModel =
      Option.some "a > 5" ∧
    FOV.to_sql (Q.build_fov ("a__gt" ++ "__eq") (PyVal.int 5)) egModel =
      Option.some "a__gt = 5" ∧
    FOV.to_sql (Q.build_fov "a__gt" (PyVal.int 5)) egModel ≠
      FOV.to_sql (Q.build_fov ("a__gt" ++ "__eq") (PyVal.int 5)) egModel := by
  refine ⟨?_, ?_, ?_⟩ <;> decide

/-- C5 (amended) witness: the key `my__field` has an unregistered suffix, so
`{my__field: 7}` and `{my__field__eq: 7}` agree. -/
theorem C5_eq_suffix_witness :
    lastSegmentUnregistered "my__field" = true ∧
    FOV.to_sql (Q.build_fov "my__field" (PyVal.int 7)) egModel =
      FOV.to_sql (Q.build_fov ("my__field" ++ "__eq") (PyVal.int 7)) egModel :=
  ⟨by decide, C5_eq_suffix_equivalence "my__field" (PyVal.int 7) egModel (by decide)⟩

/-- The registry resolves the six LIKE-family names to the expected
templates and case flags. -/
theorem operators_like_family :
    _operators "contains" = Option.some (Operator.like "%" "%" true) ∧
    _operators "startswith" = Option.some (Operator.like "" "%" true) ∧
    _operators "endswith" = Option.some (Operator.like "%" "" true) ∧
    _operators "icontains" = Option.some (Operator.like "%" "%" false) ∧
    _operators "istartswith" = Option.some (Operator.like "" "%" false) ∧
    _operators "iendswith" = Option.some (Operator.like "%" "" false) := by
  refine ⟨?_, ?_, ?_, ?_, ?_, ?_⟩ <;> decide

/-- `FOV.__init__` with a registered operator name stores the resolved
operator under the unchanged field name. -/
theorem FOV.make_found (field_name operator : String) (v : PyVal) (o : Operator)
    (h : _operators operator = Option.some o) :
    FOV.make field_name operator v =
      { field_name := field_name, operator := o, operator_lookup := operator,
        value := v } := by
  unfold FOV.make
  rw [h]

/-- C6: the LIKE-family operators escape backslash, percent and underscore
in the value's unquoted db text with doubled escapes (`\ → \\`, `% → \\%`,
`_ → \\_`), substitute the escaped text into the pattern template, and quote
the result; the case-insensitive variants wrap the field (cast to text via
`toString`) and the quoted literal in `lowerUTF8(...)`. -/
theorem C6_like_escaping (m : Model) (fn : String) (v : PyVal)
    (h : containsLikeSpecial
      ((m.fields fn).to_db_string ((m.fields fn).to_python v) false) = true) :
    FOV.to_sql (FOV.make fn "contains" v) m =
      Option.some (fn ++ " LIKE '" ++
        ("%" ++ likeEscape ((m.fields fn).to_db_string ((m.fields fn).to_python v) false)
          ++ "%") ++ "'") ∧
    FOV.to_sql (FOV.make fn "startswith" v) m =
      Option.some (fn ++ " LIKE '" ++
        ("" ++ likeEscape ((m.fields fn).to_db_string ((m.fields fn).to_python v) false)
          ++ "%") ++ "'") ∧
    FOV.to_sql (FOV.make fn "endswith" v) m =
      Option.some (fn ++ " LIKE '" ++
        ("%" ++ likeEscape ((m.fields fn).to_db_string ((m.fields fn).to_python v) false)
          ++ "") ++ "'") ∧
    FOV.to_sql (FOV.make fn "icontains" v) m =
      Option.some ("lowerUTF8(toString(" ++ fn ++ ")) LIKE lowerUTF8('" ++
        ("%" ++ likeEscape ((m.fields fn).to_db_string ((m.fields fn).to_python v) false)
          ++ "%") ++ "')") ∧
    FOV.to_sql (FOV.make fn "istartswith" v) m =
      Option.some ("lowerUTF8(toString(" ++ fn ++ ")) LIKE lowerUTF8('" ++
        ("" ++ likeEscape ((m.fields fn).to_db_string ((m.fields fn).to_python v) false)
          ++ "%") ++ "')") ∧
    FOV.to_sql (FOV.make fn "iendswith" v) m =
      Option.some ("lowerUTF8(toString(" ++ fn ++ ")) LIKE lowerUTF8('" ++
        ("%" ++ likeEscape ((m.fields fn).to_db_string ((m.fields fn).to_python v) false)
          ++ "") ++ "')") := by
  obtain ⟨h1, h2, h3, h4, h5, h6⟩ := operators_like_family
  refine ⟨?_, ?_, ?_, ?_, ?_, ?_⟩
  · rw [FOV.make_found fn "contains" v _ h1]; rfl
  · rw [FOV.make_found fn "startswith" v _ h2]; rfl
  · rw [FOV.make_found fn "endswith" v _ h3]; rfl
  · rw [FOV.make_found fn "icontains" v _ h4]; rfl
  · rw [FOV.make_found fn "istartswith" v _ h5]; rfl
  · rw [FOV.make_found fn "iendswith" v _ h6]; rfl

/-- C6 witness: for the value `a%b_c\d` on a plain string field the escaped
pattern is `%a\\%b\\_c\\d%` and `contains` renders the quoted LIKE
predicate; `icontains` wraps both operands in `lowerUTF8`. -/
theorem C6_like_escaping_witness :
    containsLikeSpecial ((egModel.fields "a").to_db_string
      ((egModel.fields "a").to_python (PyVal.str "a%b_c\\d")) false) = true ∧
    FOV.to_sql (FOV.make "a" "contains" (PyVal.str "a%b_c\\d")) egModel =
      Option.some "a LIKE '%a\\\\%b\\\\_c\\\\d%'" ∧
    FOV.to_sql (FOV.make "a" "icontains" (PyVal.str "a%b_c\\d")) egModel =
      Option.some "lowerUTF8(toString(a)) LIKE lowerUTF8('%a\\\\%b\\\\_c\\\\d%')" := by
  have h := C6_like_escaping egModel "a" (PyVal.str "a%b_c\\d") (by decide)
  exact ⟨by decide, h.1.trans (by decide), (h.2.2.2.1).trans (by decide)⟩

/-- C7: `filter` and `exclude` leave the queryset they are called on
untouched — its state after the call equals its state before, so it renders
the same SQL and its condition-tree list is unchanged — while the returned
queryset extends the tree list (negating each added tree for `exclude`). -/
theorem C7_filter_exclude_no_mutation (qs : QuerySet) (q : List QTree)
    (ff : List (String × PyVal)) :
    (QuerySet.filter qs q ff).1 = qs ∧
    ((QuerySet.filter qs q ff).1).as_sql = qs.as_sql ∧
    ((QuerySet.filter qs q ff).1).q = qs.q ∧
    (QuerySet.exclude qs q ff).1 = qs ∧
    ((QuerySet.exclude qs q ff).1).as_sql = qs.as_sql ∧
    ((QuerySet.exclude qs q ff).1).q = qs.q ∧
    ((QuerySet.filter qs q ff).2).q =
      qs.q ++ q ++ (if ff.isEmpty then [] else [Q.ofFields ff]) ∧
    ((QuerySet.exclude qs q ff).2).q =
      qs.q ++ q.map QTree.invert ++
        (if ff.isEmpty then [] else [QTree.invert (Q.ofFields ff)]) := by
  refine ⟨rfl, rfl, rfl, rfl, rfl, rfl, ?_, ?_⟩
  · rcases q with _ | ⟨q0, qrest⟩ <;> rcases ff with _ | ⟨f0, frest⟩ <;>
      simp [QuerySet.filter]
  · rcases q with _ | ⟨q0, qrest⟩ <;> rcases ff with _ | ⟨f0, frest⟩ <;>
      simp [QuerySet.exclude]

/-- Any queryset whose FINAL flag is set renders its SQL with the ` FINAL`
modifier between the table/join/array-join part and the WHERE keyword. -/
theorem QuerySet.as_sql_final_shape (qs : QuerySet) (h : qs.final_flag = true) :
    ∀ s, qs.as_sql = Option.some s → ∃ pre post, s = pre ++ " FINAL\nWHERE " ++ post := by
  intro s hs
  unfold QuerySet.as_sql at hs
  have hfin : (if qs.final_flag = true then " FINAL" else "") = " FINAL" := by
    rw [h]
    exact if_pos rfl
  rw [hfin] at hs
  cases hjo : (if !qs.join_fields.isEmpty then (qs.join_as_sql).map (fun j => "\n" ++ j)
      else Option.some "") with
  | none =>
    rw [hjo] at hs
    cases qs.conditions_as_sql <;> exact Option.noConfusion hs
  | some join =>
    rw [hjo] at hs
    cases hco : qs.conditions_as_sql with
    | none =>
      rw [hco] at hs
      exact Option.noConfusion hs
    | some conds =>
      rw [hco] at hs
      injection hs with hs
      refine ⟨"SELECT " ++ (if qs.distinct then "DISTINCT " else "") ++
        (if !qs.fields.isEmpty then comma_join qs.fields else "*") ++ "\nFROM " ++
        (if qs.subquery ≠ "" then qs.subquery else qs.model.table_name) ++ join ++
        (if qs.array ≠ "" then "\n" ++ qs.array else ""),
        conds ++ (if !qs.order_by.isEmpty then "\nORDER BY " ++ qs.order_by_as_sql else "") ++
        (match qs.limits with
         | Option.some (o, c) => "\nLIMIT " ++ toString o ++ ", " ++ toString c
         | Option.none => ""), ?_⟩
      rw [← hs]
      have hlit : (" FINAL" : String) ++ "\nWHERE " = " FINAL\nWHERE " := by decide
      conv_rhs => rw [← hlit]
      simp only [String.append_assoc]

/-- C8: `final()` on a model whose engine is not the collapsing kind raises
the `TypeError` immediately; on a collapsing-engine model it returns a copy
with the FINAL flag set, and that copy's rendered SQL carries the ` FINAL`
modifier right after the table/join/array-join part (just before `WHERE`). -/
theorem C8_final_gating (qs : QuerySet) :
    (qs.model.engine_collapsing = false →
      qs.final = Except.error
        "final() method can be used only with CollapsingMergeTree engine") ∧
    (qs.model.engine_collapsing = true →
      ∃ qs2, qs.final = Except.ok qs2 ∧ qs2.final_flag = true ∧
        ∀ s, qs2.as_sql = Option.some s →
          ∃ pre post, s = pre ++ " FINAL\nWHERE " ++ post) := by
  constructor
  · intro h
    unfold QuerySet.final
    rw [h]
    rfl
  · intro h
    refine ⟨{ qs with final_flag := true }, ?_, rfl, ?_⟩
    · unfold QuerySet.final
      rw [h]
      rfl
    · exact QuerySet.as_sql_final_shape { qs with final_flag := true } rfl

/-- C8 witness: `final()` errors on the non-collapsing sample model and, on
the collapsing one, succeeds with SQL whose modifier sits before `WHERE`. -/
theorem C8_final_gating_witness :
    (QuerySet.init egModel).final = Except.error
      "final() method can be used only with CollapsingMergeTree engine" ∧
    (∃ qs2, (QuerySet.init egModelC).final = Except.ok qs2 ∧ qs2.final_flag = true ∧
      ∀ s, qs2.as_sql = Option.some s →
        ∃ pre post, s = pre ++ " FINAL\nWHERE " ++ post) :=
  ⟨(C8_final_gating (QuerySet.init egModel)).1 rfl,
   (C8_final_gating (QuerySet.init egModelC)).2 rfl⟩

/-- Unfolding lemma: `__getitem__` on a slice with two explicit bounds and
no step. -/
theorem QuerySet.getitemSlice_some (qs : QuerySet) (a b : Int) :
    qs.getitemSlice (Option.some a) (Option.some b) Option.none =
      (let start : Int := if a = 0 then 0 else a
       let stop : Int := if b = 0 then 2 ^ 63 - 1 else b
       if start ≥ 0 ∧ stop ≥ 0 then
         if start ≤ stop then
           Except.ok { qs with limits := Option.some (start, stop - start) }
         else Except.error "start of slice cannot be smaller than its end"
       else Except.error "negative indexes are not supported") := by
  unfold QuerySet.getitemSlice
  rw [if_pos (Or.inl rfl)]

/-- Unfolding lemma: `paginate` with `page_num = -1` resolves the page
number to `pages_total` and slices from the corresponding offset. -/
theorem QuerySet.paginate_last (qs : QuerySet) (count : Nat) (page_size : Nat)
    (hps : page_size ≠ 0) :
    qs.paginate count (-1) page_size =
      (match qs.getitemSlice
          (Option.some ((((pagesTotalOf count page_size : Nat) : Int) - 1) * (page_size : Int)))
          (Option.some ((((pagesTotalOf count page_size : Nat) : Int) - 1) * (page_size : Int)
            + (page_size : Int)))
          Option.none with
       | Except.error e => Except.error e
       | Except.ok sliced =>
         Except.ok ⟨sliced, count, pagesTotalOf count page_size,
           ((pagesTotalOf count page_size : Nat) : Int), page_size⟩) := by
  unfold QuerySet.paginate
  rw [if_neg hps]
  rfl

/-- C10: paginating an empty result set (`count = 0`) with `page_num = -1`
fails instead of returning an empty last page: `pages_total` is `0`, the
resolved page number `0` makes the offset `(0 - 1) * page_size` negative,
and the negative slice start trips the `negative indexes are not supported`
assertion in `__getitem__`. -/
theorem C10_paginate_empty_last_page (qs : QuerySet) (page_size : Nat)
    (h : 0 < page_size) :
    pagesTotalOf 0 page_size = 0 ∧
    ((0 : Int) - 1) * (page_size : Int) < 0 ∧
    qs.paginate 0 (-1) page_size =
      Except.error "negative indexes are not supported" := by
  have hps : page_size ≠ 0 := Nat.pos_iff_ne_zero.mp h
  have hzp : (0 : Int) < (page_size : Int) := by exact_mod_cast h
  have hpt : pagesTotalOf 0 page_size = 0 := by
    unfold pagesTotalOf
    exact Nat.div_eq_of_lt (by omega)
  have e1 : (((0 : Nat) : Int) - 1) * (page_size : Int) = -(page_size : Int) := by
    push_cast
    ring
  have hneg : ((0 : Int) - 1) * (page_size : Int) < 0 := by
    have h0 : ((0 : Int) - 1) * (page_size : Int) = -(page_size : Int) := by ring
    rw [h0]
    omega
  refine ⟨hpt, hneg, ?_⟩
  have hslice : qs.getitemSlice
      (Option.some ((((0 : Nat) : Int) - 1) * (page_size : Int)))
      (Option.some ((((0 : Nat) : Int) - 1) * (page_size : Int) + (page_size : Int)))
      Option.none = Except.error "negative indexes are not supported" := by
    rw [QuerySet.getitemSlice_some]
    have hA : (((0 : Nat) : Int) - 1) * (page_size : Int) ≠ 0 := by
      rw [e1]
      omega
    have hB : (((0 : Nat) : Int) - 1) * (page_size : Int) + (page_size : Int) = 0 := by
      rw [e1]
      omega
    rw [if_neg hA, if_pos hB]
    rw [if_neg ?hcond]
    case hcond =>
      rintro ⟨ha, _⟩
      rw [e1] at ha
      omega
  rw [QuerySet.paginate_last qs 0 page_size hps, hpt, hslice]

/-- C10 witness: the failure at the concrete page size 20. -/
theorem C10_paginate_empty_last_page_witness :
    0 < 20 ∧
    (pagesTotalOf 0 20 = 0 ∧
     ((0 : Int) - 1) * ((20 : Nat) : Int) < 0 ∧
     (QuerySet.init egModel).paginate 0 (-1) 20 =
       Except.error "negative indexes are not supported") :=
  ⟨by decide, C10_paginate_empty_last_page (QuerySet.init egModel) 20 (by decide)⟩

/-- C9 counterexample: after a second `join` call that passes no label, the
join-type prefix is indeed the concatenation `ALL LEFT JOIN ALL LEFT JOIN `
and the fields are replaced, but the label of the first call survives
(`' AS lbl'`), so the claim's "the label is replaced by the new call's
arguments" is false (the new call's label argument is the empty string). -/
theorem C9_label_not_replaced_counterexample :
    c9Twice.join_type = "ALL LEFT JOIN ALL LEFT JOIN " ∧
    c9Twice.join_fields = ["b"] ∧
    c9Twice.join_label = " AS lbl" ∧
    c9Twice.join_label ≠ "" ∧
    c9Twice.join_label ≠ " AS " := by
  refine ⟨?_, ?_, ?_, ?_, ?_⟩ <;> decide

/-- C9 (amended): `join` appends the new join-type prefix to the one the
copy inherited (so two successive all/left joins accumulate
`ALL LEFT JOIN ALL LEFT JOIN `) and always replaces the join target and
fields; the label, however, is replaced only when the new call passes a
non-empty label — otherwise the previous label persists. -/
theorem C9_join_accumulates_type (self : QuerySet) (query : JoinSrc)
    (join_fields : List String) (inner_ : Bool) (label_ : String) (all_ : Bool) :
    (self.join query join_fields inner_ label_ all_).join_type =
      self.join_type ++ ((if all_ then "ALL " else "ANY ") ++
        (if inner_ then "INNER JOIN " else "LEFT JOIN ")) ∧
    (self.join query join_fields inner_ label_ all_).join_fields = join_fields ∧
    (self.join query join_fields inner_ label_ all_).join_query = Option.some query ∧
    (self.join query join_fields inner_ label_ all_).join_label =
      (if label_ ≠ "" then " AS " ++ label_ else self.join_label) := by
  unfold QuerySet.join
  by_cases hlb : label_ ≠ "" <;>
    simp [hlb, String.append_assoc]

end ClickhouseWrapper
